import Mathlib

/-
  Verification of the cherry front end (lexer, LL(1) grammar engine, and
  recursive-descent type/segment parsers) against its natural-language
  specification.  All definitions below are shallow embeddings translated
  directly from the C++ sources of the repository; file and symbol names are
  cited in the doc comments.
-/

namespace Cherry

/-! ## Characters and classification (cctype, C locale) -/

/-- The NUL character; std::string guarantees a readable NUL at data()[size()],
and state accessors return it at or past the end of the source. -/
def nulChar : Char := Char.ofNat 0

/-- Double quote character. -/
def dqChar : Char := Char.ofNat 34

/-- Single quote character. -/
def sqChar : Char := Char.ofNat 39

/-- Backslash character. -/
def bsChar : Char := Char.ofNat 92

/-- Opening curly brace character. -/
def obChar : Char := Char.ofNat 123

/-- Closing curly brace character. -/
def cbChar : Char := Char.ofNat 125

/-- C std::isspace in the C locale. -/
def cIsSpace (c : Char) : Bool :=
  c == ' ' || c == Char.ofNat 9 || c == Char.ofNat 10 ||
  c == Char.ofNat 11 || c == Char.ofNat 12 || c == Char.ofNat 13

/-- C std::isdigit in the C locale. -/
def cIsDigit (c : Char) : Bool :=
  '0' ≤ c && c ≤ '9'

/-- C std::isalpha in the C locale. -/
def cIsAlpha (c : Char) : Bool :=
  ('a' ≤ c && c ≤ 'z') || ('A' ≤ c && c ≤ 'Z')

/-- C std::isalnum in the C locale. -/
def cIsAlnum (c : Char) : Bool :=
  cIsAlpha c || cIsDigit c

/-- Indexing into the owned source buffer: code[i] for i ≤ length reads the
character, with the guaranteed NUL terminator at index = length.  The
embedded code never indexes further than one past the end. -/
def charAt (s : List Char) (i : Nat) : Char :=
  s.getD i nulChar

/-! ## leaf (token kinds), from src/source/lexer.hpp and src/source/lex/leaf.hpp -/

/-- Terminal token kinds of the cherry lexer (enum class leaf).  The newer
split headers add lv_ml_string and lv_mli_string, included here. -/
inductive Leaf where
  | eos
  | unknown
  | comment
  | identifier
  | lvSigned
  | lvUnsigned
  | lvDecimal
  | lvCharacter
  | lvRawString
  | lvIntString
  | lvMlString
  | lvMliString
  | lvNull
  | lvTrue
  | lvFalse
  | kwVar
  | kwConst
  | kwStatic
  | kwObject
  | kwExtend
  | kwDef
  | kwAlias
  | kwBool
  | kwChar
  | kwInt8
  | kwInt16
  | kwInt32
  | kwInt64
  | kwUint8
  | kwUint16
  | kwUint32
  | kwUint64
  | kwSingle
  | kwDouble
  | kwString
  | kwVoid
  | kwUsing
  | kwModule
  | kwExternKw
  | cfIf
  | cfElse
  | cfFor
  | cfDo
  | cfWhile
  | cfMatch
  | cfNext
  | cfBreak
  | cfAs
  | cfIs
  | cfReturn
  | opAdd
  | opSub
  | opMul
  | opDiv
  | opMod
  | opAddEq
  | opSubEq
  | opMulEq
  | opDivEq
  | opModEq
  | opInc
  | opDec
  | opAssign
  | opAccess
  | opTernary
  | opCascade
  | opEllipsis
  | opBitnot
  | opBitand
  | opBitor
  | opBitxor
  | opBitlsh
  | opBitrsh
  | opBitnotEq
  | opBitandEq
  | opBitorEq
  | opBitxorEq
  | opBitlshEq
  | opBitrshEq
  | opLognot
  | opLogand
  | opLogor
  | opLogless
  | opLogmore
  | opLogequals
  | opLognotEq
  | opLogandEq
  | opLogorEq
  | opLoglessEq
  | opLogmoreEq
  | dcLparen
  | dcRparen
  | dcLbracket
  | dcRbracket
  | dcLbrace
  | dcRbrace
  | dcComma
  | dcTerminator
  | dcColon
deriving DecidableEq, Repr

/-- Lexical error codes (enum class errc), from src/source/lex/error.hpp. -/
inductive Errc where
  | unrecoverable
  | success
  | failure
  | notMyToken
  | invalidBinary
  | invalidOctal
  | invalidHexadecimal
  | invalidUnicode
  | invalidCharacter
  | invalidRawString
  | invalidMlString
deriving DecidableEq, Repr

/-- A lexical token (struct token): lexeme view, kind, line and column. -/
structure Token where
  lexeme : List Char
  type : Leaf
  line : Nat
  column : Nat
deriving DecidableEq, Repr

/-- The lexing state (struct state): the owned source, the cursor, and the
private pending-token bookkeeping (token_.line, token_.column, lexeme_start_). -/
structure LexState where
  code : List Char
  line : Nat := 0
  column : Nat := 0
  index : Nat := 0
  tokLine : Nat := 0
  tokColumn : Nat := 0
  lexemeStart : Nat := 0
deriving DecidableEq, Repr

/-- state::end_of_source. -/
def LexState.endOfSource (st : LexState) : Bool :=
  st.index == st.code.length

/-- state::curr_src_char: code[index]. -/
def LexState.currSrcChar (st : LexState) : Char :=
  charAt st.code st.index

/-- state::next_src_char: code[index + 1]. -/
def LexState.nextSrcChar (st : LexState) : Char :=
  charAt st.code (st.index + 1)

/-- state::prev_src_char: code[index - 1]. -/
def LexState.prevSrcChar (st : LexState) : Char :=
  charAt st.code (st.index - 1)

/-- state::read_src_char: returns NUL without advancing at the end of the
source; otherwise consumes one character, tracking line and column. -/
def LexState.readSrcChar (st : LexState) : Char × LexState :=
  if st.index == st.code.length then (nulChar, st)
  else
    let c := charAt st.code st.index
    let st := { st with index := st.index + 1 }
    if c == Char.ofNat 10 then (c, { st with line := st.line + 1, column := 0 })
    else (c, { st with column := st.column + 1 })

/-- state::read_src_char used purely for its state effect. -/
def LexState.read1 (st : LexState) : LexState :=
  (st.readSrcChar).2

/-- state::remaining_source: the view from index to the end. -/
def LexState.remainingSource (st : LexState) : List Char :=
  st.code.drop st.index

/-- state::start_token. -/
def LexState.startToken (st : LexState) : LexState :=
  { st with tokLine := st.line, tokColumn := st.column, lexemeStart := st.index }

/-- state::extract_token: the lexeme is code[lexeme_start, index). -/
def LexState.extractToken (st : LexState) (t : Leaf) : Token :=
  { lexeme := (st.code.take st.index).drop st.lexemeStart
    type := t
    line := st.tokLine
    column := st.tokColumn }

/-- Result of one tokenize call: std::expected of token or errc, paired with
the mutated state. -/
abbrev LexOut := Except Errc Token × LexState

/-- Read-then-check consumption loop, the pattern
while (!eos && p(read_src_char())) continue; used by the binary, octal and
hexadecimal rules.  Note that the character that fails the test has already
been consumed when the loop exits.  Fuel bounds the iteration; every step
advances the index, so code.length + 1 fuel always suffices. -/
def consumeWhileRead (p : Char → Bool) : Nat → LexState → LexState
  | 0, st => st
  | n + 1, st =>
    if st.endOfSource then st
    else
      let (c, st') := st.readSrcChar
      if p c then consumeWhileRead p n st' else st'

/-- Check-then-read consumption loop, the pattern
while (!eos && p(curr_src_char())) read_src_char(); used by the keyword,
decimal and comment rules. -/
def consumeWhilePeek (p : Char → Bool) : Nat → LexState → LexState
  | 0, st => st
  | n + 1, st =>
    if st.endOfSource then st
    else if p st.currSrcChar then consumeWhilePeek p n st.read1
    else st

/-! ## Binary rule (binary_rule), src/source/lexer.hpp and src/source/lex/binary.hpp -/

/-- binary_rule private is_binary. -/
def isBinaryChar (c : Char) : Bool :=
  c == '0' || c == '1'

/-- binary_rule::litmus: the input starts with the prefix 0b. -/
def binaryLitmus (s : List Char) : Bool :=
  s.take 2 == ['0', 'b']

/-- binary_rule::tokenize: flush the 0b prefix, then require a binary
character; the requirement tests next_src_char (code[index + 1]), exactly as
the source does. -/
def binaryTokenize (st : LexState) : LexOut :=
  let st := st.startToken
  let st := st.read1
  let st := st.read1
  if st.endOfSource || !(isBinaryChar st.nextSrcChar) then
    (.error .invalidBinary, st)
  else
    let st := consumeWhileRead isBinaryChar (st.code.length + 1) st
    (.ok (st.extractToken .lvSigned), st)

/-! ## Octal rule (octal_rule), src/source/lexer.hpp lines 901 to 941 -/

/-- octal_rule private is_octal, translated with the disjunction exactly as
written in the source: ch >= the character 0, OR ch <= the character 7. -/
def isOctalChar (c : Char) : Bool :=
  c ≥ '0' || c ≤ '7'

/-- octal_rule::litmus: a leading 0, at least one further character, and
is_octal on the second character. -/
def octalLitmus (s : List Char) : Bool :=
  s.take 1 == ['0'] && s.length > 1 && isOctalChar (s.getD 1 nulChar)

/-- octal_rule::tokenize: flush the 0, require is_octal at code[index], then
consume while is_octal. -/
def octalTokenize (st : LexState) : LexOut :=
  let st := st.startToken
  let st := st.read1
  if st.endOfSource || !(isOctalChar (charAt st.code st.index)) then
    (.error .invalidOctal, st)
  else
    let st := consumeWhileRead isOctalChar (st.code.length + 1) st
    (.ok (st.extractToken .lvSigned), st)

/-! ## Hexadecimal rule (hexadecimal_rule), src/source/lexer.hpp lines 1017 to 1068 -/

/-- hexadecimal_rule private is_upper_digit, with the disjunction exactly as
in the source. -/
def isUpperHexDigit (c : Char) : Bool :=
  c ≥ 'A' || c ≤ 'F'

/-- hexadecimal_rule private is_lower_digit, with the disjunction exactly as
in the source. -/
def isLowerHexDigit (c : Char) : Bool :=
  c ≥ 'a' || c ≤ 'f'

/-- hexadecimal_rule private is_hexadecimal. -/
def isHexadecimalChar (c : Char) : Bool :=
  cIsDigit c || isUpperHexDigit c || isLowerHexDigit c

/-- hexadecimal_rule::litmus: the input starts with the prefix 0x. -/
def hexadecimalLitmus (s : List Char) : Bool :=
  s.take 2 == ['0', 'x']

/-- hexadecimal_rule::tokenize. -/
def hexadecimalTokenize (st : LexState) : LexOut :=
  let st := st.startToken
  let st := st.read1
  let st := st.read1
  if st.endOfSource || !(isHexadecimalChar (charAt st.code st.index)) then
    (.error .invalidHexadecimal, st)
  else
    let st := consumeWhileRead isHexadecimalChar (st.code.length + 1) st
    (.ok (st.extractToken .lvSigned), st)

/-! ## Comment rule (comment_rule), src/unnamed/part_010 -/

/-- comment_rule::litmus: the input starts with a hash. -/
def commentLitmus (s : List Char) : Bool :=
  s.take 1 == ['#']

/-- comment_rule::tokenize: read one character, then consume up to the end of
the line, and emit a comment token. -/
def commentTokenize (st : LexState) : LexOut :=
  let st := st.startToken
  let st := st.read1
  let st := consumeWhilePeek (fun c => c != Char.ofNat 10) (st.code.length + 1) st
  (.ok (st.extractToken .comment), st)

/-! ## Keyword rule (keyword_rule), src/unnamed/part_013 -/

/-- keyword_rule::litmus: the first character is alphabetic or an underscore. -/
def keywordLitmus (s : List Char) : Bool :=
  cIsAlpha (s.getD 0 nulChar) || s.take 1 == ['_']

/-- keyword_rule private is_keyword_char. -/
def isKeywordChar (c : Char) : Bool :=
  cIsAlnum c || c == '_'

/-- keyword_rule private keyword table k_keyword_mapped_types. -/
def keywordMap : List (List Char × Leaf) :=
  [ ("null".data, .lvNull)
  , ("true".data, .lvTrue)
  , ("false".data, .lvFalse)
  , ("var".data, .kwVar)
  , ("const".data, .kwConst)
  , ("static".data, .kwStatic)
  , ("object".data, .kwObject)
  , ("extend".data, .kwExtend)
  , ("def".data, .kwDef)
  , ("alias".data, .kwAlias)
  , ("bool".data, .kwBool)
  , ("char".data, .kwChar)
  , ("int8".data, .kwInt8)
  , ("int16".data, .kwInt16)
  , ("int32".data, .kwInt32)
  , ("int64".data, .kwInt64)
  , ("uint8".data, .kwUint8)
  , ("uint16".data, .kwUint16)
  , ("uint32".data, .kwUint32)
  , ("uint64".data, .kwUint64)
  , ("single".data, .kwSingle)
  , ("double".data, .kwDouble)
  , ("string".data, .kwString)
  , ("void".data, .kwVoid)
  , ("using".data, .kwUsing)
  , ("module".data, .kwModule)
  , ("extern".data, .kwExternKw)
  , ("if".data, .cfIf)
  , ("else".data, .cfElse)
  , ("for".data, .cfFor)
  , ("do".data, .cfDo)
  , ("while".data, .cfWhile)
  , ("match".data, .cfMatch)
  , ("next".data, .cfNext)
  , ("break".data, .cfBreak)
  , ("as".data, .cfAs)
  , ("is".data, .cfIs)
  , ("return".data, .cfReturn) ]

/-- keyword_rule private get_token_type: look the lexeme up in the keyword
table, defaulting to identifier. -/
def getTokenType (lexeme : List Char) : Leaf :=
  match keywordMap.find? (fun p => p.1 == lexeme) with
  | some p => p.2
  | none => .identifier

/-- keyword_rule::tokenize. -/
def keywordTokenize (st : LexState) : LexOut :=
  let st := st.startToken
  let st := st.read1
  let st := consumeWhilePeek isKeywordChar (st.code.length + 1) st
  let tkn := st.extractToken .unknown
  (.ok { tkn with type := getTokenType tkn.lexeme }, st)

/-! ## Decimal rule (decimal_rule), src/unnamed/part_010 -/

/-- decimal_rule::litmus. -/
def decimalLitmus (s : List Char) : Bool :=
  if !(cIsDigit (s.getD 0 nulChar)) then false
  else if s.getD 0 nulChar == '0' && s.length > 1 then
    s.getD 1 nulChar != 'b' && s.getD 1 nulChar != 'x' &&
    !(cIsDigit (s.getD 1 nulChar))
  else true

/-- decimal_rule::tokenize. -/
def decimalTokenize (st : LexState) : LexOut :=
  let st := st.startToken
  let st := st.read1
  let st := consumeWhilePeek cIsDigit (st.code.length + 1) st
  if st.currSrcChar != '.' then (.ok (st.extractToken .lvSigned), st)
  else if !(cIsDigit st.nextSrcChar) then (.ok (st.extractToken .lvSigned), st)
  else
    let st := st.read1
    let st := consumeWhilePeek cIsDigit (st.code.length + 1) st
    (.ok (st.extractToken .lvDecimal), st)

/-! ## Character rule (character_rule), src/source/lex files -/

/-- character_rule::litmus: the input starts with a single quote. -/
def characterLitmus (s : List Char) : Bool :=
  s.take 1 == [sqChar]

/-- The bounded scanning loop in character_rule private tokenize_unicode: up
to five reads, accepting the closing quote and demanding hexadecimal
characters otherwise. -/
def characterUnicodeLoop : Nat → LexState → LexOut
  | 0, st => (.error .invalidUnicode, st)
  | n + 1, st =>
    let (c, st') := st.readSrcChar
    if c == sqChar then (.ok (st'.extractToken .lvCharacter), st')
    else if !(isHexadecimalChar st'.currSrcChar) then (.error .invalidUnicode, st')
    else characterUnicodeLoop n st'

/-- character_rule private tokenize_unicode. -/
def characterTokenizeUnicode (st : LexState) : LexOut :=
  let st := st.read1
  if st.currSrcChar == sqChar then (.error .invalidUnicode, st)
  else characterUnicodeLoop 5 st

/-- character_rule::tokenize. -/
def characterTokenize (st : LexState) : LexOut :=
  let st := st.startToken
  let st := st.read1
  if st.currSrcChar == bsChar then
    let st := st.read1
    if st.currSrcChar == 'u' then characterTokenizeUnicode st
    else if st.currSrcChar == sqChar then (.error .invalidCharacter, st)
    else
      let st := st.read1
      let (c, st) := st.readSrcChar
      if c != sqChar then (.error .invalidCharacter, st)
      else (.ok (st.extractToken .lvCharacter), st)
  else
    let st := st.read1
    let (c, st) := st.readSrcChar
    if c != sqChar then (.error .invalidCharacter, st)
    else (.ok (st.extractToken .lvCharacter), st)

/-! ## String rule (string_rule), src/unnamed/part_014 -/

/-- string_rule::litmus: a raw triple quote opener or a double quote. -/
def stringLitmus (s : List Char) : Bool :=
  s.take 4 == ['r', dqChar, dqChar, dqChar] || s.take 1 == [dqChar]

/-- string_rule private should_continue. -/
def stringShouldContinue (c : Char) : Bool :=
  c != Char.ofNat 10 && c != dqChar

/-- string_rule private handle_interpolation: an unescaped opening brace
promotes lv_raw_string to lv_int_string and lv_ml_string to lv_mli_string;
one character is consumed either way. -/
def handleInterpolation (st : LexState) (t : Leaf) : Leaf × LexState :=
  let t :=
    if st.currSrcChar == obChar && st.prevSrcChar != bsChar then
      match t with
      | .lvRawString => .lvIntString
      | .lvMlString => .lvMliString
      | _ => t
    else t
  (t, st.read1)

/-- The quote-counting loop shared by handle_opener and handle_closure: count
while the current character is a double quote and the count is below four. -/
def countQuotes : Nat → Nat → LexState → Nat × LexState
  | 0, count, st => (count, st)
  | n + 1, count, st =>
    if st.currSrcChar == dqChar && count < 4 then
      countQuotes n (count + 1) st.read1
    else (count, st)

/-- string_rule private handle_opener: three consumed quotes select multiline
mode. -/
def handleOpener (st : LexState) : Nat × LexState :=
  countQuotes 5 0 st

/-- string_rule private handle_closure: true exactly when three quotes close
the literal. -/
def handleClosure (st : LexState) : Bool × LexState :=
  let (count, st) := countQuotes 5 0 st
  (count == 3, st)

/-- Body loop of the string analyzers: while not at the end of the source and
the stop condition fails, run handle_interpolation. -/
def stringBodyLoop (stop : Char → Bool) : Nat → Leaf → LexState → Leaf × LexState
  | 0, t, st => (t, st)
  | n + 1, t, st =>
    if st.endOfSource || stop st.currSrcChar then (t, st)
    else
      let (t', st') := handleInterpolation st t
      stringBodyLoop stop n t' st'

/-- string_rule private analyze_literal. -/
def analyzeLiteral (st : LexState) (t : Leaf) : LexOut :=
  let (t, st) := stringBodyLoop (fun c => !(stringShouldContinue c)) (st.code.length + 1) t st
  if st.endOfSource || st.currSrcChar == Char.ofNat 10 then
    (.error .invalidRawString, st)
  else
    let st := st.read1
    (.ok (st.extractToken t), st)

/-- string_rule private analyze_multiline. -/
def analyzeMultiline (st : LexState) : LexOut :=
  let t := Leaf.lvMlString
  let (t, st) := stringBodyLoop (fun c => c == dqChar) (st.code.length + 1) t st
  if st.endOfSource then (.error .invalidMlString, st)
  else
    let (closed, st) := handleClosure st
    if !closed then (.error .invalidMlString, st)
    else (.ok (st.extractToken t), st)

/-- string_rule private analyze_raw. -/
def analyzeRaw (st : LexState) (t : Leaf) : LexOut :=
  let (t, st) := stringBodyLoop (fun c => c == dqChar) (st.code.length + 1) t st
  if st.endOfSource then (.error .invalidRawString, st)
  else
    let (closed, st) := handleClosure st
    if !closed then (.error .invalidRawString, st)
    else (.ok (st.extractToken t), st)

/-- string_rule::tokenize: record the entry index, branch on raw mode, handle
the opener, and dispatch on the resulting string mode.  An opener of exactly
two quotes is the empty literal and returns immediately. -/
def stringTokenize (st : LexState) : LexOut :=
  let index0 := st.index
  let st := st.startToken
  if st.currSrcChar == 'r' then
    let st := st.read1
    let (_, st) := handleOpener st
    analyzeRaw st .lvRawString
  else
    let (count, st) := handleOpener st
    if st.index - index0 == 2 then (.ok (st.extractToken .lvRawString), st)
    else if count == 3 then analyzeMultiline st
    else analyzeLiteral st .lvRawString

/-! ## Operator rule (operator_rule), src/unnamed/part_014 -/

/-- operator_rule::litmus: membership in the closed punctuation set
k_known_ops. -/
def operatorLitmus (s : List Char) : Bool :=
  (s.getD 0 nulChar) ∈
    ['+', '-', '*', '/', '%', '=', '.', '?', '~', '&', '|', Char.ofNat 94,
     '<', '>', '!', '(', ')', obChar, cbChar, '[', ']', ',', ';', ':']

/-- operator_rule private tokenize_equals. -/
def operatorTokenizeEquals (st : LexState) (t : Leaf) : LexOut :=
  if st.currSrcChar != '=' then (.ok (st.extractToken t), st)
  else
    let st := st.read1
    match t with
    | .opAdd => (.ok (st.extractToken .opAddEq), st)
    | .opSub => (.ok (st.extractToken .opSubEq), st)
    | .opMul => (.ok (st.extractToken .opMulEq), st)
    | .opDiv => (.ok (st.extractToken .opDivEq), st)
    | .opMod => (.ok (st.extractToken .opModEq), st)
    | .opAssign => (.ok (st.extractToken .opLogequals), st)
    | .opBitnot => (.ok (st.extractToken .opBitnotEq), st)
    | .opBitand => (.ok (st.extractToken .opBitandEq), st)
    | .opBitor => (.ok (st.extractToken .opBitorEq), st)
    | .opBitxor => (.ok (st.extractToken .opBitxorEq), st)
    | .opBitlsh => (.ok (st.extractToken .opBitlshEq), st)
    | .opBitrsh => (.ok (st.extractToken .opBitrshEq), st)
    | .opLognot => (.ok (st.extractToken .opLognotEq), st)
    | .opLogand => (.ok (st.extractToken .opLogandEq), st)
    | .opLogor => (.ok (st.extractToken .opLogorEq), st)
    | .opLogless => (.ok (st.extractToken .opLoglessEq), st)
    | .opLogmore => (.ok (st.extractToken .opLogmoreEq), st)
    | _ => (.ok (st.extractToken .unknown), st)

/-- operator_rule private tokenize_triple. -/
def operatorTokenizeTriple (st : LexState) (t : Leaf) : LexOut :=
  if st.prevSrcChar != st.currSrcChar then (.ok (st.extractToken t), st)
  else
    let st := st.read1
    (.ok (st.extractToken .opEllipsis), st)

/-- operator_rule private tokenize_double. -/
def operatorTokenizeDouble (st : LexState) (t : Leaf) : LexOut :=
  if st.prevSrcChar != st.currSrcChar then operatorTokenizeEquals st t
  else
    let st := st.read1
    match t with
    | .opAdd => (.ok (st.extractToken .opInc), st)
    | .opSub => (.ok (st.extractToken .opDec), st)
    | .opAccess => operatorTokenizeTriple st .opCascade
    | .opBitand => operatorTokenizeEquals st .opLogand
    | .opBitor => operatorTokenizeEquals st .opLogor
    | .opLogless => operatorTokenizeEquals st .opBitlsh
    | .opLogmore => operatorTokenizeEquals st .opBitrsh
    | _ => (.ok (st.extractToken .unknown), st)

/-- operator_rule private tokenize_single, dispatching on the consumed
character. -/
def operatorTokenize (st : LexState) : LexOut :=
  let st := st.startToken
  let (c, st) := st.readSrcChar
  if c == '+' then operatorTokenizeDouble st .opAdd
  else if c == '-' then operatorTokenizeDouble st .opSub
  else if c == '&' then operatorTokenizeDouble st .opBitand
  else if c == '|' then operatorTokenizeDouble st .opBitor
  else if c == '<' then operatorTokenizeDouble st .opLogless
  else if c == '>' then operatorTokenizeDouble st .opLogmore
  else if c == '.' then operatorTokenizeDouble st .opAccess
  else if c == '*' then operatorTokenizeEquals st .opMul
  else if c == '/' then operatorTokenizeEquals st .opDiv
  else if c == '%' then operatorTokenizeEquals st .opMod
  else if c == '=' then operatorTokenizeEquals st .opAssign
  else if c == '~' then operatorTokenizeEquals st .opBitnot
  else if c == Char.ofNat 94 then operatorTokenizeEquals st .opBitxor
  else if c == '!' then operatorTokenizeEquals st .opLognot
  else if c == '?' then (.ok (st.extractToken .opTernary), st)
  else if c == '(' then (.ok (st.extractToken .dcLparen), st)
  else if c == ')' then (.ok (st.extractToken .dcRparen), st)
  else if c == obChar then (.ok (st.extractToken .dcLbrace), st)
  else if c == cbChar then (.ok (st.extractToken .dcRbrace), st)
  else if c == '[' then (.ok (st.extractToken .dcLbracket), st)
  else if c == ']' then (.ok (st.extractToken .dcRbracket), st)
  else if c == ',' then (.ok (st.extractToken .dcComma), st)
  else if c == ';' then (.ok (st.extractToken .dcTerminator), st)
  else if c == ':' then (.ok (st.extractToken .dcColon), st)
  else (.ok (st.extractToken .unknown), st)

/-! ## Lexical analyzer (lexical_analyzer and the cherry lexer alias),
src/source/lexer.hpp lines 1358 to 1409 -/

/-- A lexical rule: the litmus and tokenize capability pair. -/
structure LexRule where
  litmus : List Char → Bool
  tokenize : LexState → LexOut

/-- lexical_analyzer private skip_whitespace: advance while isspace holds of
the current character; at the end of the source the current character is NUL,
which is not a space. -/
def skipWhitespace : Nat → LexState → LexState
  | 0, st => st
  | n + 1, st =>
    if cIsSpace st.currSrcChar then skipWhitespace n st.read1
    else st

/-- The fixed, ordered rule list of the cherry lexer: comment, keyword,
binary, octal, decimal, hexadecimal, character, string, operator. -/
def cherryRules : List LexRule :=
  [ ⟨commentLitmus, commentTokenize⟩
  , ⟨keywordLitmus, keywordTokenize⟩
  , ⟨binaryLitmus, binaryTokenize⟩
  , ⟨octalLitmus, octalTokenize⟩
  , ⟨decimalLitmus, decimalTokenize⟩
  , ⟨hexadecimalLitmus, hexadecimalTokenize⟩
  , ⟨characterLitmus, characterTokenize⟩
  , ⟨stringLitmus, stringTokenize⟩
  , ⟨operatorLitmus, operatorTokenize⟩ ]

/-- lexical_analyzer private try_tokenize: skip whitespace, probe the rules in
order, run the first rule whose litmus accepts, and report not_my_token when
every rule declines. -/
def tryTokenize : List LexRule → LexState → LexOut
  | [], st => (.error .notMyToken, st)
  | r :: rs, st =>
    let st := skipWhitespace (st.code.length + 1) st
    if r.litmus st.remainingSource then r.tokenize st
    else tryTokenize rs st

/-- lexer::tokenize, the cherry lexer instantiated with the nine rules. -/
def cherryTokenize (st : LexState) : LexOut :=
  tryTokenize cherryRules st

/-- Fresh lexing state over a source buffer. -/
def initState (src : List Char) : LexState :=
  { code := src }

/-- Repeatedly call the cherry lexer, collecting the tokens up to the first
error; the fuel bounds the number of calls, and none reports exhaustion. -/
def lexTrace : Nat → LexState → Option (List Token × Errc)
  | 0, _ => none
  | n + 1, st =>
    match cherryTokenize st with
    | (.error e, _) => some ([], e)
    | (.ok t, st') => (lexTrace n st').map (fun p => (t :: p.1, p.2))

/-! ## LL(1) grammar engine (ll1_grammar), src/source/grammar.hpp -/

/-- Grammar symbols are signed 16-bit integers (class symbol); modelled as
integers since every arithmetic here stays far inside the int16 range. -/
abbrev Sym := Int

/-- The epsilon sentinel k_epsilon. -/
def kEpsilon : Sym := -1

/-- The end-of-input sentinel k_final. -/
def kFinal : Sym := -2

/-- detail::leaf_upper_limit: half the int16 maximum. -/
def leafUpperLimit : Sym := 16383

/-- symbol::is_leaf: the value is strictly below the leaf upper limit. -/
def symIsLeaf (s : Sym) : Bool :=
  s < leafUpperLimit

/-- A production body. -/
abbrev SymSeq := List Sym

/-- prod_sets_t: a std::multimap of head to body, modelled as the list of its
entries in map order (keys ascending, insertion order preserved between equal
keys). -/
abbrev ProdSets := List (Sym × SymSeq)

/-- symb_sets_t: a std::map of symbol to std::set of symbols, modelled as the
list of its entries with keys ascending and each set as its ascending list of
elements. -/
abbrev SymSets := List (Sym × List Sym)

/-- std::set emplace: sorted insertion returning whether an element was
actually inserted. -/
def setEmplace (x : Sym) : List Sym → List Sym × Bool
  | [] => ([x], true)
  | y :: ys =>
    if x < y then (x :: y :: ys, true)
    else if x == y then (y :: ys, false)
    else
      let (zs, b) := setEmplace x ys
      (y :: zs, b)

/-- std::map lookup at, as an optional value (at throws when absent). -/
def mapFind (k : Sym) : SymSets → Option (List Sym)
  | [] => none
  | (k', v) :: rest => if k == k' then some v else mapFind k rest

/-- std::map operator[]: default-insert an empty set at the key, keeping keys
sorted. -/
def mapEnsure (k : Sym) : SymSets → SymSets
  | [] => [(k, [])]
  | (k', v) :: rest =>
    if k < k' then (k, []) :: (k', v) :: rest
    else if k == k' then (k', v) :: rest
    else (k', v) :: mapEnsure k rest

/-- Emplace a symbol into the set stored at a key that is already present,
reporting whether the set grew. -/
def mapEmplaceAt (k : Sym) (x : Sym) : SymSets → SymSets × Bool
  | [] => ([], false)
  | (k', v) :: rest =>
    if k == k' then
      let (v', b) := setEmplace x v
      ((k', v') :: rest, b)
    else
      let (rest', b) := mapEmplaceAt k x rest
      ((k', v) :: rest', b)

/-- ll1_grammar private firsts_of: accumulate the FIRST symbols of a sequence.
A terminal ends the walk; a nonterminal contributes its FIRST set via map at
(none models the exception when the set is absent); epsilon is erased through
the erase-remove idiom, which is well defined only when the accumulated vector
holds exactly one epsilon (none models the otherwise undefined erase). -/
def firstsOfGo (firsts : SymSets) : SymSeq → SymSeq → Option SymSeq
  | [], acc => some (acc ++ [kEpsilon])
  | s :: rest, acc =>
    if symIsLeaf s then some (acc ++ [s])
    else
      match mapFind s firsts with
      | none => none
      | some set =>
        let acc := acc ++ set
        if !(set.contains kEpsilon) then some acc
        else if acc.count kEpsilon == 1 then
          firstsOfGo firsts rest (acc.filter (fun x => x != kEpsilon))
        else none

/-- ll1_grammar private firsts_of over a whole sequence. -/
def firstsOf (sequence : SymSeq) (firsts : SymSets) : Option SymSeq :=
  firstsOfGo firsts sequence []

/-- ll1_grammar private update_firsts: default-create the entry for the head,
compute firsts_of for the body, and emplace every symbol, reporting whether
any insertion happened. -/
def updateFirsts (head : Sym) (body : SymSeq) (results : SymSets) :
    Option (SymSets × Bool) :=
  let results := mapEnsure head results
  match firstsOf body results with
  | none => none
  | some seq =>
    some (seq.foldl
      (fun acc s =>
        let (m, inserted) := mapEmplaceAt head s acc.1
        (m, acc.2 || inserted))
      (results, false))

/-- One pass of the first_sets fix-point: iterate the productions in reverse
map order; the proceed flag is overwritten by each production, exactly as the
assignment inside the loop of first_sets does. -/
def firstsPass (prods : ProdSets) (results : SymSets) : Option (SymSets × Bool) :=
  prods.reverse.foldlM
    (fun (acc : SymSets × Bool) p => updateFirsts p.1 p.2 acc.1)
    (results, false)

/-- The do-while driver of first_sets; none models a run that the fuel cannot
finish. -/
def firstsLoop (prods : ProdSets) : Nat → SymSets → Option SymSets
  | 0, _ => none
  | n + 1, results => do
    let (results', proceed) ← firstsPass prods results
    if proceed then firstsLoop prods n results' else pure results'

/-- ll1_grammar::first_sets for a given production multimap. -/
def firstSetsOf (prods : ProdSets) : Option SymSets :=
  firstsLoop prods 32 []

/-- Inner step of update_follows for one nonterminal occurrence: add the
non-epsilon firsts of the tail, and when that sequence derives epsilon add the
follow set of the head; proceed accumulates insertions. -/
def followStep (head curr : Sym) (tail : SymSeq) (firsts : SymSets)
    (acc : SymSets × Bool) : Option (SymSets × Bool) :=
  let results := mapEnsure curr acc.1
  match firstsOf tail firsts with
  | none => none
  | some seq =>
    let (results, proceed) :=
      seq.foldl
        (fun a s =>
          if s == kEpsilon then a
          else
            let (m, inserted) := mapEmplaceAt curr s a.1
            (m, a.2 || inserted))
        (results, acc.2)
    if seq.contains kEpsilon then
      let results := mapEnsure head results
      match mapFind head results with
      | none => none
      | some headSet =>
        some (headSet.foldl
          (fun a s =>
            let (m, inserted) := mapEmplaceAt curr s a.1
            (m, a.2 || inserted))
          (results, proceed))
    else some (results, proceed)

/-- ll1_grammar private update_follows: walk the body positions in order and
apply the follow step to every nonterminal. -/
def updateFollowsGo (head : Sym) (firsts : SymSets) :
    SymSeq → SymSets × Bool → Option (SymSets × Bool)
  | [], acc => some acc
  | curr :: tail, acc =>
    if symIsLeaf curr then updateFollowsGo head firsts tail acc
    else do
      let acc' ← followStep head curr tail firsts acc
      updateFollowsGo head firsts tail acc'

/-- ll1_grammar private update_follows over a whole body. -/
def updateFollows (head : Sym) (body : SymSeq) (firsts : SymSets)
    (results : SymSets) : Option (SymSets × Bool) :=
  updateFollowsGo head firsts body (results, false)

/-- One pass of the follow_sets fix-point, in reverse map order with the
proceed flag overwritten per production. -/
def followsPass (prods : ProdSets) (firsts : SymSets) (results : SymSets) :
    Option (SymSets × Bool) :=
  prods.reverse.foldlM
    (fun (acc : SymSets × Bool) p => updateFollows p.1 p.2 firsts acc.1)
    (results, false)

/-- The do-while driver of follow_sets. -/
def followsLoop (prods : ProdSets) (firsts : SymSets) :
    Nat → SymSets → Option SymSets
  | 0, _ => none
  | n + 1, results => do
    let (results', proceed) ← followsPass prods firsts results
    if proceed then followsLoop prods firsts n results' else pure results'

/-- ll1_grammar::follow_sets for a given production multimap: seed the follow
set of the start symbol (leaf_upper_limit + 1) with the final sentinel, then
run the fix-point over the completed FIRST sets. -/
def followSetsOf (prods : ProdSets) : Option SymSets := do
  let firsts ← firstSetsOf prods
  followsLoop prods firsts 32 [(leafUpperLimit + 1, [kFinal])]

/-! ## The classical expression grammar of the grammar test,
src/tests/syn/grammar.cpp -/

/-- Terminal id of the expression grammar test. -/
def symIdent : Sym := 0

/-- Terminal plus of the expression grammar test. -/
def symAdd : Sym := 1

/-- Terminal star of the expression grammar test. -/
def symMul : Sym := 2

/-- Terminal left parenthesis of the expression grammar test. -/
def symLparen : Sym := 3

/-- Terminal right parenthesis of the expression grammar test. -/
def symRparen : Sym := 4

/-- Nonterminal E, the start symbol: leaf_upper_limit + 1. -/
def symE : Sym := 16384

/-- Nonterminal EP. -/
def symEP : Sym := 16385

/-- Nonterminal T. -/
def symT : Sym := 16386

/-- Nonterminal TP. -/
def symTP : Sym := 16387

/-- Nonterminal F. -/
def symF : Sym := 16388

/-- The merged production multimap of the expression grammar rules, in
std::multimap order: keys ascending, and for equal keys the insertion order
of each rule object. -/
def exprProds : ProdSets :=
  [ (symE, [symT, symEP])
  , (symEP, [symAdd, symT, symEP])
  , (symEP, [kEpsilon])
  , (symT, [symF, symTP])
  , (symTP, [symMul, symF, symTP])
  , (symTP, [kEpsilon])
  , (symF, [symLparen, symE, symRparen])
  , (symF, [symIdent]) ]

/-! ## AST type nodes (ast::segment, ast::type with variants raw, fn, arr,
ref), src/source/ast/paths.hpp -/

/-- ast::segment::primitive values. -/
inductive Primitive where
  | pBool
  | pChar
  | pInt8
  | pInt16
  | pInt32
  | pInt64
  | pUint8
  | pUint16
  | pUint32
  | pUint64
  | pSingle
  | pDouble
  | pString
  | pVoid
deriving DecidableEq, Repr

mutual

/-- A path segment: the primitive subtype carrying its value, or the generic
subtype carrying a name and the generic argument types. -/
inductive Segment where
  | prim (val : Primitive)
  | generic (name : List Char) (inputs : List AType)
deriving Repr

/-- An ast::type node: the base carries the segments and the variant tag
selects raw, fn (inputs and optional output), arr, or ref (depth flags, true
for a pointer and false for a reference). -/
inductive AType where
  | raw (segments : List Segment)
  | fn (segments : List Segment) (inputs : List AType) (output : Option AType)
  | arr (segments : List Segment)
  | ref (segments : List Segment) (depth : List Bool)
deriving Repr

end

/-- The variant discriminant of a type node (type::subtype). -/
def AType.subtypeTag : AType → Nat
  | .raw _ => 0
  | .fn .. => 1
  | .arr _ => 2
  | .ref .. => 3

/-- The base segments of a type node. -/
def AType.segmentsOf : AType → List Segment
  | .raw s => s
  | .fn s _ _ => s
  | .arr s => s
  | .ref s _ => s

/-- The depth flags of a reference type node, empty for the other variants. -/
def AType.refDepth : AType → List Bool
  | .ref _ d => d
  | _ => []

mutual

/-- The C++ operator== over type nodes, src/source/ast/paths.hpp lines 430 to
464: compare the variant tags, the segment counts, each segment, and then
dispatch on the variant.  The common segment comparison is written inside
each variant branch so the termination checker sees the structural descent;
the mixed-tag branches sit behind the tag guard and can never run.  The
result is optional because the function can reach the throwing optional
access inside the fn comparison; none models that the comparison does not
return. -/
def typeEq : AType → AType → Option Bool
  | l, r =>
    if l.subtypeTag != r.subtypeTag then some false
    else if l.segmentsOf.length != r.segmentsOf.length then some false
    else
      match l, r with
      | .fn ls li lo, .fn rs ri ro =>
        (match segListEq ls rs with
         | none => none
         | some false => some false
         | some true =>
           -- operator==(const type::fn&, const type::fn&), lines 325 to 345:
           -- input counts, output presence, each input, and then
           -- unconditionally *lhs.output.value() == *rhs.output.value().
           if li.length != ri.length then some false
           else if lo.isSome != ro.isSome then some false
           else
             match typeListEq li ri with
             | none => none
             | some false => some false
             | some true =>
               match lo, ro with
               | some a, some b => typeEq a b
               | _, _ => none)
      | .arr ls, .arr rs =>
        (match segListEq ls rs with
         | none => none
         | some false => some false
         | some true => some true)
      | .ref ls ld, .ref rs rd =>
        (match segListEq ls rs with
         | none => none
         | some false => some false
         | some true =>
           -- operator==(const type::ref&, const type::ref&): same depth
           -- length and elementwise equal depth flags.
           some (ld == rd))
      | .raw ls, .raw rs =>
        (match segListEq ls rs with
         | none => none
         | some false => some false
         | some true => some true)
      | _, _ => some false

/-- Elementwise comparison of the input vectors of a fn node, with the early
false return of the C++ loop and propagation of a non-returning comparison. -/
def typeListEq : List AType → List AType → Option Bool
  | [], [] => some true
  | a :: as', b :: bs =>
    (match typeEq a b with
     | none => none
     | some false => some false
     | some true => typeListEq as' bs)
  | _, _ => some false

/-- Structural comparison of segments: primitive values, or generic name and
generic inputs.  The operator for the polymorphic segment is declared in a
header that is not under src; modelled from the spec: equality descends
through owned children and tagged variants. -/
def segEq : Segment → Segment → Option Bool
  | .prim a, .prim b => some (a == b)
  | .generic n1 i1, .generic n2 i2 =>
    if n1 != n2 then some false
    else if i1.length != i2.length then some false
    else typeListEq i1 i2
  | _, _ => some false

/-- Elementwise comparison of segment vectors with early false return. -/
def segListEq : List Segment → List Segment → Option Bool
  | [], [] => some true
  | a :: as', b :: bs =>
    (match segEq a b with
     | none => none
     | some false => some false
     | some true => segListEq as' bs)
  | _, _ => some false

end

/-! ## Syntax analysis state and errors (syn::state, syn::errc),
src/source/parser.hpp -/

/-- Syntax error codes. -/
inductive SynErrc where
  | unrecoverable
  | success
  | failure
  | notMySyntax
  | expectedIdentifier
  | expectedTerminator
deriving DecidableEq, Repr

/-- syn::state: the lookahead token and the stream that the wrapped lexer
still has to deliver.  Parsers call next_token and ignore its error code; the
cherry lexer keeps reporting not_my_token at the end of the source, which
leaves the current token unchanged, and that is how the empty pending list is
modelled. -/
structure SynState where
  pending : List Token
  current : Token
deriving Repr

/-- syn::state::next_token as the parsers use it: load the next token into
current when the stream has one, otherwise leave current unchanged. -/
def SynState.nextToken (st : SynState) : SynState :=
  match st.pending with
  | [] => st
  | t :: ts => { pending := ts, current := t }

/-- Initial parser state: the tests read one token into current before
parsing starts. -/
def synInit : List Token → SynState
  | [] => { pending := [], current := { lexeme := [], type := .eos, line := 0, column := 0 } }
  | t :: ts => { pending := ts, current := t }

/-- The identifier start check shared by segment_parser and
path_expr_parser. -/
def identifierLeaf (t : Leaf) : Bool :=
  t == .identifier

/-- The primitive keyword start set of segment_parser and path_expr_parser. -/
def primitiveLeaf : Leaf → Bool
  | .kwBool => true
  | .kwChar => true
  | .kwInt8 => true
  | .kwInt16 => true
  | .kwInt32 => true
  | .kwInt64 => true
  | .kwUint8 => true
  | .kwUint16 => true
  | .kwUint32 => true
  | .kwUint64 => true
  | .kwSingle => true
  | .kwDouble => true
  | .kwString => true
  | .kwVoid => true
  | _ => false

/-- The primitive value selected by segment_parser private parse_primitive;
the switch has no default and is only reached on the primitive start set. -/
def primOfLeaf : Leaf → Primitive
  | .kwBool => .pBool
  | .kwChar => .pChar
  | .kwInt8 => .pInt8
  | .kwInt16 => .pInt16
  | .kwInt32 => .pInt32
  | .kwInt64 => .pInt64
  | .kwUint8 => .pUint8
  | .kwUint16 => .pUint16
  | .kwUint32 => .pUint32
  | .kwUint64 => .pUint64
  | .kwSingle => .pSingle
  | .kwDouble => .pDouble
  | .kwString => .pString
  | .kwVoid => .pVoid
  | _ => .pBool

/-- segment_parser private parse_primitive: build the primitive segment and
advance. -/
def parsePrimitive (st : SynState) : (Except SynErrc Segment) × SynState :=
  (.ok (.prim (primOfLeaf st.current.type)), st.nextToken)

/-! ## Recursive-descent parsers (segment_parser, path_expr_parser,
type_parser), src/source/syn/import.hpp and src/unnamed/part_017 and
part_019.  The mutual functions take a fuel argument; every recursive call
spends one unit, and the fuel-out branches return unrecoverable, which no run
in this file reaches. -/

mutual

/-- segment_parser::parse: generics after an identifier, a primitive segment
on the primitive start set, and not_my_syntax otherwise. -/
def segmentParse : Nat → SynState → (Except SynErrc Segment) × SynState
  | 0, st => (.error .unrecoverable, st)
  | n + 1, st =>
    if identifierLeaf st.current.type then segmentParseGenerics n st
    else if primitiveLeaf st.current.type then parsePrimitive st
    else (.error .notMySyntax, st)

/-- segment_parser private parse_generics: capture the name and advance; when
the lookahead is not the less-than operator the bare generic segment is
produced; otherwise the do-while loop consumes a token, demands a type (any
failure, including not_my_syntax on an immediately closing bracket, becomes
failure), and repeats until the greater-than operator is the lookahead. -/
def segmentParseGenerics : Nat → SynState → (Except SynErrc Segment) × SynState
  | 0, st => (.error .unrecoverable, st)
  | n + 1, st =>
    let name := st.current.lexeme
    let st := st.nextToken
    if st.current.type != .opLogless then (.ok (.generic name []), st)
    else segmentGenericsLoop n name [] st

/-- The do-while body of parse_generics. -/
def segmentGenericsLoop : Nat → List Char → List AType → SynState →
    (Except SynErrc Segment) × SynState
  | 0, _, _, st => (.error .unrecoverable, st)
  | n + 1, name, inputs, st =>
    let st := st.nextToken
    match typeParse n st with
    | (.error _, st') => (.error .failure, st')
    | (.ok t, st') =>
      let inputs := inputs ++ [t]
      if st'.current.type != .opLogmore then segmentGenericsLoop n name inputs st'
      else (.ok (.generic name inputs), st')

/-- path_expr_parser::parse: a first segment on the identifier or primitive
start set (declining with not_my_syntax otherwise, and converting other
segment errors to failure), then further segments after each access
operator. -/
def pathExprParse : Nat → SynState → (Except SynErrc (List Segment)) × SynState
  | 0, st => (.error .unrecoverable, st)
  | n + 1, st =>
    if !(identifierLeaf st.current.type) && !(primitiveLeaf st.current.type) then
      (.error .notMySyntax, st)
    else
      match segmentParse n st with
      | (.error e, st') =>
        if e == .notMySyntax then (.error e, st') else (.error .failure, st')
      | (.ok segm, st') => pathExprLoop n [segm] st'

/-- The access-operator loop of path_expr_parser::parse. -/
def pathExprLoop : Nat → List Segment → SynState →
    (Except SynErrc (List Segment)) × SynState
  | 0, _, st => (.error .unrecoverable, st)
  | n + 1, segments, st =>
    if st.current.type == .opAccess then
      let st := st.nextToken
      match segmentParse n st with
      | (.error _, st') => (.error .failure, st')
      | (.ok segm, st') => pathExprLoop n (segments ++ [segm]) st'
    else (.ok segments, st)

/-- type_parser::parse, src/unnamed/part_019: parse a path expression first
(propagating not_my_syntax, turning other errors into failure); a left
parenthesis starts a function type, a left bracket starts an array type
(parse_array returns a null pointer whose dereference ends the run, modelled
as unrecoverable), a star or ampersand starts the reference loop, and
anything else produces the raw type. -/
def typeParse : Nat → SynState → (Except SynErrc AType) × SynState
  | 0, st => (.error .unrecoverable, st)
  | n + 1, st =>
    match pathExprParse n st with
    | (.error e, st') =>
      if e == .notMySyntax then (.error e, st') else (.error .failure, st')
    | (.ok segments, st') =>
      if st'.current.type == .dcLparen then
        match typeParseFunction n st' with
        | (.error _, st'') => (.error .failure, st'')
        | (.ok (inputs, output), st'') => (.ok (.fn segments inputs output), st'')
      else if st'.current.type == .dcLbracket then
        (.error .unrecoverable, st')
      else if st'.current.type != .opMul && st'.current.type != .opBitand then
        (.ok (.raw segments), st')
      else
        let (depth, st'') := typeRefLoop n [] st'
        (.ok (.ref segments depth), st'')

/-- The sigil loop of the reference branch of type_parser::parse: a star
appends true and an ampersand appends false, consuming one token each. -/
def typeRefLoop : Nat → List Bool → SynState → List Bool × SynState
  | 0, depth, st => (depth, st)
  | n + 1, depth, st =>
    if st.current.type == .opMul then typeRefLoop n (depth ++ [true]) st.nextToken
    else if st.current.type == .opBitand then typeRefLoop n (depth ++ [false]) st.nextToken
    else (depth, st)

/-- type_parser private parse_function, src/unnamed/part_017: flush the left
parenthesis, collect comma-separated input types until the right parenthesis,
flush it, and parse the output type after a colon when present. -/
def typeParseFunction : Nat → SynState →
    (Except SynErrc (List AType × Option AType)) × SynState
  | 0, st => (.error .unrecoverable, st)
  | n + 1, st =>
    let st := st.nextToken
    match typeFnInputsLoop n [] st with
    | (.error e, st') => (.error e, st')
    | (.ok inputs, st') =>
      let st' := st'.nextToken
      if st'.current.type == .dcColon then
        let st'' := st'.nextToken
        match typeParse n st'' with
        | (.error _, st3) => (.error .failure, st3)
        | (.ok out, st3) => (.ok (inputs, some out), st3)
      else (.ok (inputs, none), st')

/-- The input-collection loop of parse_function. -/
def typeFnInputsLoop : Nat → List AType → SynState →
    (Except SynErrc (List AType)) × SynState
  | 0, _, st => (.error .unrecoverable, st)
  | n + 1, inputs, st =>
    if st.current.type != .dcRparen then
      match typeParse n st with
      | (.error _, st') => (.error .failure, st')
      | (.ok t, st') =>
        let inputs := inputs ++ [t]
        let st' := if st'.current.type == .dcComma then st'.nextToken else st'
        typeFnInputsLoop n inputs st'
    else (.ok inputs, st)

end

/-! ## Concrete scenario inputs -/

/-- Shorthand token constructor for parser input streams. -/
def mkToken (l : List Char) (t : Leaf) (line column : Nat) : Token :=
  { lexeme := l, type := t, line := line, column := column }

/-- The reference-type scenario source. -/
def refSceneSource : List Char := "int32**&&*&".data

/-- The token stream the cherry lexer produces for the reference-type
scenario source, as established below: the double ampersand is one
logical-and token. -/
def refSceneLexedTokens : List Token :=
  match lexTrace 32 (initState refSceneSource) with
  | some (ts, _) => ts
  | none => []

/-- The type-parser run over the lexed reference-type scenario stream. -/
def refSceneRealRun : Except SynErrc AType :=
  (typeParse 64 (synInit refSceneLexedTokens)).1

/-- The per-sigil token stream of the reference-type unit test
(SynTypeTests type_parser_correctly_parses_ref): every star and ampersand is
its own token; an eos token closes the stream. -/
def refScenePerSigilTokens : List Token :=
  [ mkToken ("int32".data) .kwInt32 0 0
  , mkToken ("*".data) .opMul 0 5
  , mkToken ("*".data) .opMul 0 6
  , mkToken ("&".data) .opBitand 0 7
  , mkToken ("&".data) .opBitand 0 8
  , mkToken ("*".data) .opMul 0 9
  , mkToken ("&".data) .opBitand 0 10
  , mkToken [] .eos 0 11 ]

/-- Token stream for an identifier followed by empty angle brackets. -/
def emptyAngleTokens : List Token :=
  [ mkToken ("vec".data) .identifier 0 0
  , mkToken ("<".data) .opLogless 0 3
  , mkToken (">".data) .opLogmore 0 4
  , mkToken [] .eos 0 5 ]

/-- The interpolated multiline scenario source: triple quote, the characters
h i space, an opening brace, the characters n a m e, a closing brace, and a
closing triple quote. -/
def mliSource : List Char :=
  [dqChar, dqChar, dqChar, 'h', 'i', ' ', obChar, 'n', 'a', 'm', 'e', cbChar,
   dqChar, dqChar, dqChar]

/-! ## Shared lemmas about the lexer at the end of the source -/

/-- At the end of the source the current character is the NUL terminator. -/
theorem currSrcChar_eos (st : LexState) (h : st.index = st.code.length) :
    st.currSrcChar = nulChar := by
  simp [LexState.currSrcChar, charAt, h, List.getD_eq_default]

/-- skip_whitespace does not move a state that is at the end of the source,
because the NUL terminator is not a space. -/
theorem skipWhitespace_eos (n : Nat) (st : LexState) (h : st.index = st.code.length) :
    skipWhitespace n st = st := by
  cases n with
  | zero => rfl
  | succ m =>
    rw [skipWhitespace, currSrcChar_eos st h]
    simp [cIsSpace, nulChar]

/-- At the end of the source the remaining view is empty. -/
theorem remainingSource_eos (st : LexState) (h : st.index = st.code.length) :
    st.remainingSource = [] := by
  simp [LexState.remainingSource, h]

/-- When whitespace skipping is a no-op and every litmus declines, the
dispatcher walks the whole rule list and reports not_my_token with the state
untouched. -/
theorem tryTokenize_all_decline (rules : List LexRule) (st : LexState)
    (hskip : ∀ n, skipWhitespace n st = st)
    (hfalse : ∀ r ∈ rules, r.litmus st.remainingSource = false) :
    tryTokenize rules st = (.error .notMyToken, st) := by
  induction rules with
  | nil => rfl
  | cons r rs ih =>
    rw [tryTokenize, hskip, hfalse r (by simp)]
    simp only [Bool.false_eq_true, if_false]
    exact ih (fun r' hr' => hfalse r' (by simp [hr']))

/-- The cherry lexer at the end of the source: every one of the nine litmus
tests evaluates to false on the empty remaining view, the result is the
not_my_token error, and the state is returned unchanged. -/
theorem cherryTokenize_eos (st : LexState) (h : st.index = st.code.length) :
    cherryTokenize st = (.error .notMyToken, st) := by
  have hrem : st.remainingSource = [] := remainingSource_eos st h
  refine tryTokenize_all_decline cherryRules st (fun n => skipWhitespace_eos n st h) ?_
  intro r hr
  rw [hrem]
  simp only [cherryRules, List.mem_cons, List.mem_singleton] at hr
  rcases hr with rfl | rfl | rfl | rfl | rfl | rfl | rfl | rfl | rfl | hr
  · rfl
  · rfl
  · rfl
  · rfl
  · rfl
  · rfl
  · rfl
  · rfl
  · rfl
  · cases hr

/-! ## Claim theorems -/

/-- C1: for the production set of the classical expression grammar with E as
the start symbol, first_sets returns exactly FIRST(E) = id and lparen,
FIRST(EP) = epsilon and plus, FIRST(T) = id and lparen, FIRST(TP) = epsilon
and star, FIRST(F) = id and lparen, and follow_sets returns exactly
FOLLOW(E) = final and rparen, FOLLOW(EP) = final and rparen, FOLLOW(T) =
final, plus and rparen, FOLLOW(TP) = final, plus and rparen, FOLLOW(F) =
final, plus, star and rparen. -/
theorem grammarFirstFollowExpr :
    firstSetsOf exprProds =
      some [(symE, [symIdent, symLparen]), (symEP, [kEpsilon, symAdd]),
            (symT, [symIdent, symLparen]), (symTP, [kEpsilon, symMul]),
            (symF, [symIdent, symLparen])] ∧
    followSetsOf exprProds =
      some [(symE, [kFinal, symRparen]), (symEP, [kFinal, symRparen]),
            (symT, [kFinal, symAdd, symRparen]),
            (symTP, [kFinal, symAdd, symRparen]),
            (symF, [kFinal, symAdd, symMul, symRparen])] := by
  exact ⟨by decide, by decide⟩

/-- C2 counterexample: on the token stream that the cherry lexer actually
produces for the reference-type source, the double ampersand becomes one
logical-and token, the sigil loop of the type parser stops there, and the
returned reference type has depth true, true rather than the claimed
six-entry list. -/
theorem typeParseRealStreamCounterexample :
    lexTrace 32 (initState refSceneSource) =
      some ([ mkToken ("int32".data) .kwInt32 0 0
            , mkToken ("*".data) .opMul 0 5
            , mkToken ("*".data) .opMul 0 6
            , mkToken ("&&".data) .opLogand 0 7
            , mkToken ("*".data) .opMul 0 9
            , mkToken ("&".data) .opBitand 0 10 ], .notMyToken) ∧
    refSceneRealRun = .ok (.ref [.prim .pInt32] [true, true]) ∧
    refSceneRealRun ≠ .ok (.ref [.prim .pInt32]
      [true, true, false, false, true, false]) := by
  refine ⟨rfl, rfl, ?_⟩
  have h : refSceneRealRun = .ok (.ref [.prim .pInt32] [true, true]) := rfl
  rw [h]
  intro hc
  simp only [Except.ok.injEq] at hc
  cases hc

/-- C2 as amended: the type parser applied to the lexed stream of the
reference-type source returns a reference type with the single segment
Primitive int32 and depth true, true; the claimed depth true, true, false,
false, true, false is produced exactly when every star and ampersand arrives
as its own op_mul or op_bitand token, as in the per-sigil stream of the unit
test. -/
theorem typeParseRefStreams :
    refSceneRealRun = .ok (.ref [.prim .pInt32] [true, true]) ∧
    (typeParse 64 (synInit refScenePerSigilTokens)).1 =
      .ok (.ref [.prim .pInt32] [true, true, false, false, true, false]) :=
  ⟨rfl, rfl⟩

/-- C3: tokenizing the source 0x with the cherry lexer does not produce the
invalid_hexadecimal error the claim demands; the octal litmus accepts the x
because is_octal uses a disjunction that every character satisfies, so the
octal rule runs first and returns an lv_signed token whose lexeme is the
whole prefix. -/
theorem lexerHexPrefixTokenizesViaOctal :
    (cherryTokenize (initState ("0x".data))).1 =
      .ok (mkToken ("0x".data) .lvSigned 0 0) ∧
    octalLitmus ("0x".data) = true ∧
    hexadecimalLitmus ("0x".data) = true :=
  ⟨rfl, rfl, rfl⟩

/-- C4: tokenizing 0b1 with the binary rule returns invalid_binary, although
one binary digit follows the prefix: after flushing 0b the rule inspects
next_src_char, which is one position past the first body character and reads
the NUL terminator here.  The in-range source 0b01010101 of the unit test
still tokenizes. -/
theorem binaryRejectsSingleDigitBody :
    (binaryTokenize (initState ("0b1".data))).1 = .error .invalidBinary ∧
    (binaryTokenize (initState ("0b01010101".data))).1 =
      .ok (mkToken ("0b01010101".data) .lvSigned 0 0) :=
  ⟨rfl, rfl⟩

/-- C5: the octal rule does not stop at the first character outside the octal
digits: is_octal holds of every character, so on the source 0 1 space 9 the
whole input is consumed and the lexeme of the returned token is the entire
source rather than 01. -/
theorem octalConsumesBeyondOctalDigits :
    (octalTokenize (initState ("01 9".data))).1 =
      .ok (mkToken ("01 9".data) .lvSigned 0 0) ∧
    isOctalChar ' ' = true ∧ isOctalChar '9' = true :=
  ⟨rfl, rfl, rfl⟩

/-- C6: on an identifier followed by empty angle brackets the segment parser
fails with the failure error instead of producing a generic segment with an
empty inputs list: the do-while loop of parse_generics demands a type
immediately after the opening bracket, and the type parser declines on the
closing bracket. -/
theorem segmentParserEmptyAngleBracketsFail :
    (segmentParse 64 (synInit emptyAngleTokens)).1 = .error .failure :=
  rfl

/-- C7 counterexample: on the empty source the very first call of the cherry
lexer returns the not_my_token error, not a token of type eos; the claimed
eos-terminated stream never appears because no rule and no dispatcher branch
ever emits an eos token. -/
theorem lexerEmptySourceYieldsError :
    (cherryTokenize (initState [])).1 = .error .notMyToken :=
  rfl

/-- C7 as amended: for every state at the end of its source, repeated calls
of the cherry lexer deliver no further token and the stream is terminated by
the not_my_token error rather than by an eos token. -/
theorem lexerStreamEndsWithNotMyToken (st : LexState) (n : Nat)
    (h : st.index = st.code.length) :
    lexTrace (n + 1) st = some ([], .notMyToken) := by
  rw [lexTrace, cherryTokenize_eos st h]

/-- Witness for the amended C7 theorem at a concrete end-of-source state. -/
theorem lexerStreamEndsWithNotMyTokenWitness :
    lexTrace 1 { code := ['a', 'b'], index := 2 } = some ([], .notMyToken) :=
  lexerStreamEndsWithNotMyToken { code := ['a', 'b'], index := 2 } 0 rfl

/-- C8: tokenizing the interpolated multiline source with the string rule
succeeds with a single lv_mli_string token whose lexeme is the entire source,
from the opening triple quote through the closing triple quote; the unescaped
opening brace promotes lv_ml_string to lv_mli_string. -/
theorem stringRuleInterpolatedMultilineFullSpan :
    (stringTokenize (initState mliSource)).1 =
      .ok (mkToken mliSource .lvMliString 0 0) :=
  rfl

/-- C9: structural equality on AST type nodes is not reflexive on a fn node
without an output: the fn comparison evaluates output.value() even when both
outputs are absent, which throws bad_optional_access inside a noexcept
function, so X == X does not evaluate to true there (the comparison does not
return, modelled as none).  On nodes with present children the equality is
reflexive, as the raw and the output-carrying fn instances show. -/
theorem typeEqFnWithoutOutputDoesNotReturn :
    typeEq (.fn [] [] none) (.fn [] [] none) = none ∧
    typeEq (.raw [.prim .pInt32]) (.raw [.prim .pInt32]) = some true ∧
    typeEq (.fn [] [] (some (.raw [.prim .pVoid])))
           (.fn [] [] (some (.raw [.prim .pVoid]))) = some true := by
  refine ⟨?_, ?_, ?_⟩
  · simp [typeEq, segListEq, typeListEq, AType.subtypeTag, AType.segmentsOf]
  · simp [typeEq, segListEq, typeListEq, segEq, AType.subtypeTag, AType.segmentsOf]
  · simp [typeEq, segListEq, typeListEq, segEq, AType.subtypeTag, AType.segmentsOf]

/-- C10: for every lexing state whose index equals the length of the source,
the cherry lexer evaluates each litmus on the empty remaining view (every
access in the embedding stays inside the null-terminated buffer), returns the
not_my_token error, and returns the state unchanged, so index, line and
column are untouched. -/
theorem lexerTokenizeAtEndOfSource (st : LexState)
    (h : st.index = st.code.length) :
    cherryTokenize st = (.error .notMyToken, st) :=
  cherryTokenize_eos st h

/-- Witness for the C10 theorem at a concrete end-of-source state. -/
theorem lexerTokenizeAtEndOfSourceWitness :
    cherryTokenize { code := ['0', 'x'], line := 0, column := 2, index := 2 } =
      (.error .notMyToken,
       { code := ['0', 'x'], line := 0, column := 2, index := 2 }) :=
  lexerTokenizeAtEndOfSource
    { code := ['0', 'x'], line := 0, column := 2, index := 2 } rfl

end Cherry
